import Mathlib

/-!
Verification of the EtherCAT master bus manager (pysoem-based Python package
`ethercat_master`) against its natural-language specification.

The development shallowly embeds the relevant parts of the source:

* `pdo.py` — PDO mapping configuration (`load_pdo_config`, `get_slave_pdo`,
  `configure_pdo_mapping`);
* `bus.py` — the bus lifecycle manager (`EtherCATBus.__init__`, `open`'s
  per-handle configuration loop, `close`, `_processdata_loop`, `_check_loop`,
  `_attempt_reconnect`, `_recover_slave`).

Python machine-level details are modelled explicitly: `struct.pack` becomes a
byte-list builder with `% 256`, exceptions become an explicit error type
returned in an `Option`/`Except`, and external effects (the pysoem engine, the
slaves' SDO endpoints) become oracles passed as function arguments.  Numbers in
the PDO documents are modelled as naturals, which covers every well-formed PDO
mapping document (object indices are 16-bit addresses) and the malformed
documents the claims are about.
-/

namespace EtherCATMaster

/-- One SDO write as issued to a slave by `slave.sdo_write(index, subindex,
data)`: object index, sub-index, and the packed data bytes. -/
structure SdoWrite where
  index : Nat
  subindex : Nat
  data : List Nat
deriving Repr, DecidableEq

/-- Python `struct.pack("<B", n)`: one unsigned byte. -/
def packB (n : Nat) : List Nat := [n % 256]

/-- Python `struct.pack("<H", n)`: two bytes, little endian. -/
def packH (n : Nat) : List Nat := [n % 256, n / 256 % 256]

/-- The Python exceptions reachable in the modelled code, carried with the
data their messages interpolate.  `runtimeSdo` is the `RuntimeError` raised by
`_sdo_write` in `pdo.py` (message names the device, the failing object
index/sub-index, the label and the underlying cause); `configurationError` is
`ConfigurationError` as raised by `EtherCATBus.open` (names the slave index and
wraps the underlying exception). -/
inductive PyExc where
  | runtimeSdo (deviceName : String) (index subindex : Nat) (label cause : String)
  | configurationError (slaveIndex : Nat) (cause : PyExc)
  | communicationError (msg : String)
  | valueError (msg : String)
  | typeOrAttributeError (msg : String)
deriving Repr, DecidableEq

/-- Whether an exception is the package's `ConfigurationError`. -/
def PyExc.isConfigError : PyExc → Bool
  | .configurationError _ _ => true
  | _ => false

/-- `DEFAULT_RX_PDO = [0x1600]` from `pdo.py`. -/
def DEFAULT_RX_PDO : List Nat := [0x1600]

/-- `DEFAULT_TX_PDO = [0x1A00]` from `pdo.py`. -/
def DEFAULT_TX_PDO : List Nat := [0x1A00]

/-- The per-entry assignment writes of one direction:
`for i, pdo in enumerate(lst, start=1): _sdo_write(sm, i, struct.pack("<H", pdo), label)`
(`configure_pdo_mapping`, pdo.py lines 121-122 and 126-127).  The per-entry
label text is summarised by one label per direction. -/
def entryWrites (sm : Nat) (label : String) (pdos : List Nat) : List (SdoWrite × String) :=
  pdos.enum.map (fun p => (SdoWrite.mk sm (p.fst + 1) (packH p.snd), label))

/-- The full ordered write plan of `configure_pdo_mapping` (pdo.py lines
118-129): clear the SM2 RxPDO count, clear the SM3 TxPDO count, write the
RxPDO entries at sub-positions 1..N, write the RxPDO count N, write the TxPDO
entries at sub-positions 1..M, write the TxPDO count M. -/
def configurePlan (rx tx : List Nat) : List (SdoWrite × String) :=
  (SdoWrite.mk 0x1C12 0 (packB 0), "clear SM2 RxPDO count")
  :: (SdoWrite.mk 0x1C13 0 (packB 0), "clear SM3 TxPDO count")
  :: (entryWrites 0x1C12 "RxPDO entry" rx
      ++ (SdoWrite.mk 0x1C12 0 (packB rx.length), "set SM2 RxPDO count")
      :: (entryWrites 0x1C13 "TxPDO entry" tx
          ++ [(SdoWrite.mk 0x1C13 0 (packB tx.length), "set SM3 TxPDO count")]))

/-- Execute planned SDO writes in order.  The oracle `fail` maps the position
of a write attempt (counting from `pos`) to `some cause` when the slave's
`sdo_write` raises there.  The first failure stops the sequence — no further
writes happen — and is re-raised by `_sdo_write` (pdo.py lines 109-116) as a
`RuntimeError` naming the device, the object index and sub-index, the label
and the underlying cause.  Returns the performed writes and the error, if
any. -/
def runWrites (fail : Nat → Option String) (deviceName : String) :
    Nat → List (SdoWrite × String) → List SdoWrite × Option PyExc
  | _, [] => ([], none)
  | pos, (w, label) :: rest =>
    match fail pos with
    | some cause =>
        ([], some (PyExc.runtimeSdo deviceName w.index w.subindex label cause))
    | none =>
        let r := runWrites fail deviceName (pos + 1) rest
        (w :: r.fst, r.snd)

/-- `configure_pdo_mapping(slave, rx_pdo, tx_pdo)` (pdo.py lines 87-129):
`None` arguments default to `DEFAULT_RX_PDO` / `DEFAULT_TX_PDO`, then the plan
is executed write by write. -/
def configure_pdo_mapping (fail : Nat → Option String) (deviceName : String)
    (rx_pdo tx_pdo : Option (List Nat)) : List SdoWrite × Option PyExc :=
  runWrites fail deviceName 0
    (configurePlan (rx_pdo.getD DEFAULT_RX_PDO) (tx_pdo.getD DEFAULT_TX_PDO))

/-- With a never-failing slave, `runWrites` performs exactly the planned
writes, in order, and reports no error. -/
theorem runWrites_none (deviceName : String) (plan : List (SdoWrite × String)) :
    ∀ pos, runWrites (fun _ => none) deviceName pos plan = (plan.map Prod.fst, none) := by
  induction plan with
  | nil => intro pos; rfl
  | cons hd tl ih =>
    intro pos
    obtain ⟨w, label⟩ := hd
    simp [runWrites, ih (pos + 1)]

/-- A mapped list all of whose images satisfy the filter survives it. -/
theorem filter_map_all {α : Type} (l : List α) (f : α → SdoWrite) (p : SdoWrite → Bool)
    (h : ∀ a, p (f a) = true) : (l.map f).filter p = l.map f := by
  induction l with
  | nil => rfl
  | cons a t ih => simp [List.filter_cons, h, ih]

/-- A mapped list none of whose images satisfy the filter is emptied by it. -/
theorem filter_map_none {α : Type} (l : List α) (f : α → SdoWrite) (p : SdoWrite → Bool)
    (h : ∀ a, p (f a) = false) : (l.map f).filter p = [] := by
  induction l with
  | nil => rfl
  | cons a t ih => simp [List.filter_cons, h, ih]

/-- C1: for every slave and every pair of lists `rx`, `tx`,
`configure_pdo_mapping` issues its SDO writes in exactly this order: zero the
receive-assignment count (0x1C12:0x00), zero the transmit-assignment count
(0x1C13:0x00), each receive PDO index at sub-positions 1..N of 0x1C12, the
receive count N at 0x1C12:0x00, each transmit PDO index at sub-positions 1..M
of 0x1C13, the transmit count M at 0x1C13:0x00.  In particular, restricting
the write sequence to either direction's object index shows the zero-count
write first, then the per-entry writes, then the count write last. -/
theorem claim_C1_write_order (deviceName : String) (rx tx : List Nat) :
    configure_pdo_mapping (fun _ => none) deviceName (some rx) (some tx) =
      (SdoWrite.mk 0x1C12 0 (packB 0) :: SdoWrite.mk 0x1C13 0 (packB 0)
        :: (rx.enum.map (fun p => SdoWrite.mk 0x1C12 (p.fst + 1) (packH p.snd))
            ++ SdoWrite.mk 0x1C12 0 (packB rx.length)
            :: (tx.enum.map (fun p => SdoWrite.mk 0x1C13 (p.fst + 1) (packH p.snd))
                ++ [SdoWrite.mk 0x1C13 0 (packB tx.length)])), none)
    ∧ (configure_pdo_mapping (fun _ => none) deviceName (some rx) (some tx)).fst.filter
        (fun w => w.index == 0x1C12)
      = SdoWrite.mk 0x1C12 0 (packB 0)
        :: (rx.enum.map (fun p => SdoWrite.mk 0x1C12 (p.fst + 1) (packH p.snd))
            ++ [SdoWrite.mk 0x1C12 0 (packB rx.length)])
    ∧ (configure_pdo_mapping (fun _ => none) deviceName (some rx) (some tx)).fst.filter
        (fun w => w.index == 0x1C13)
      = SdoWrite.mk 0x1C13 0 (packB 0)
        :: (tx.enum.map (fun p => SdoWrite.mk 0x1C13 (p.fst + 1) (packH p.snd))
            ++ [SdoWrite.mk 0x1C13 0 (packB tx.length)]) := by
  have hrun : configure_pdo_mapping (fun _ => none) deviceName (some rx) (some tx)
      = ((configurePlan rx tx).map Prod.fst, none) := by
    simp [configure_pdo_mapping, runWrites_none]
  have hplan : (configurePlan rx tx).map Prod.fst =
      SdoWrite.mk 0x1C12 0 (packB 0) :: SdoWrite.mk 0x1C13 0 (packB 0)
        :: (rx.enum.map (fun p => SdoWrite.mk 0x1C12 (p.fst + 1) (packH p.snd))
            ++ SdoWrite.mk 0x1C12 0 (packB rx.length)
            :: (tx.enum.map (fun p => SdoWrite.mk 0x1C13 (p.fst + 1) (packH p.snd))
                ++ [SdoWrite.mk 0x1C13 0 (packB tx.length)])) := by
    simp only [configurePlan, entryWrites, List.map_cons, List.map_append, List.map_map]
    rfl
  refine ⟨by rw [hrun, hplan], ?_, ?_⟩
  · rw [hrun, hplan]
    simp only [List.filter_cons, List.filter_append]
    rw [filter_map_all (p := fun w => w.index == 0x1C12) (f := fun p => SdoWrite.mk 0x1C12 (p.fst + 1) (packH p.snd)) rx.enum (fun a => by simp),
        filter_map_none (p := fun w => w.index == 0x1C12) (f := fun p => SdoWrite.mk 0x1C13 (p.fst + 1) (packH p.snd)) tx.enum (fun a => by simp)]
    simp
  · rw [hrun, hplan]
    simp only [List.filter_cons, List.filter_append]
    rw [filter_map_none (p := fun w => w.index == 0x1C13) (f := fun p => SdoWrite.mk 0x1C12 (p.fst + 1) (packH p.snd)) rx.enum (fun a => by simp),
        filter_map_all (p := fun w => w.index == 0x1C13) (f := fun p => SdoWrite.mk 0x1C13 (p.fst + 1) (packH p.snd)) tx.enum (fun a => by simp)]
    simp

/-- One per-slave mapping entry, the dict `{"rx_pdo": [...], "tx_pdo": [...]}`
built by `load_pdo_config`. -/
structure PdoEntry where
  rx_pdo : List Nat
  tx_pdo : List Nat
deriving Repr, DecidableEq

/-- The dict returned by `load_pdo_config`: an optional `"default"` entry plus
per-index entries keyed by slave index (pdo.py lines 56-68).  Keys are
distinct, as in a Python dict. -/
structure PdoConfigData where
  dflt : Option PdoEntry
  slaves : List (Nat × PdoEntry)
deriving Repr, DecidableEq

/-- Python truthiness of the config dict: `if pdo_config:` is false for `None`
and for an empty dict (no `"default"` key and no slave keys). -/
def PdoConfigData.isTruthy (c : PdoConfigData) : Bool :=
  c.dflt.isSome || !c.slaves.isEmpty

/-- Python `list(o or d)`: an absent (`None`) or empty (falsy) list `o` is
replaced by `d`. -/
def listOr (o : Option (List Nat)) (d : List Nat) : List Nat :=
  match o with
  | some l => if l.isEmpty then d else l
  | none => d

/-- `get_slave_pdo(pdo_config, slave_index, default_rx, default_tx)` (pdo.py
lines 71-84): when the config is truthy, look the index up with the
`"default"` entry as the `.get` fallback; if that produced an entry return its
pair, otherwise fall back to `list(default_rx or DEFAULT_RX_PDO)` and
`list(default_tx or DEFAULT_TX_PDO)`. -/
def get_slave_pdo (cfg : Option PdoConfigData) (slave_index : Nat)
    (default_rx default_tx : Option (List Nat)) : List Nat × List Nat :=
  match cfg with
  | some c =>
    if c.isTruthy then
      match (match c.slaves.lookup slave_index with
             | some e => some e
             | none => c.dflt) with
      | some e => (e.rx_pdo, e.tx_pdo)
      | none => (listOr default_rx DEFAULT_RX_PDO, listOr default_tx DEFAULT_TX_PDO)
    else (listOr default_rx DEFAULT_RX_PDO, listOr default_tx DEFAULT_TX_PDO)
  | none => (listOr default_rx DEFAULT_RX_PDO, listOr default_tx DEFAULT_TX_PDO)

/-- C2 counterexample: with no mapping loaded and an explicitly supplied empty
receive fallback list, the claim predicts the supplied fallback `[]` is
returned; the code instead returns the built-in defaults, because
`list(default_rx or DEFAULT_RX_PDO)` treats the supplied empty list as falsy. -/
theorem claim_C2_counterexample :
    get_slave_pdo none 0 (some []) none = (DEFAULT_RX_PDO, DEFAULT_TX_PDO)
    ∧ get_slave_pdo none 0 (some []) none ≠ ([], DEFAULT_TX_PDO) := by
  decide

/-- C2 (amended): for every mapping (including `None`), every slave index and
every pair of supplied fallback lists, `get_slave_pdo` returns exactly one of
three results: the per-index entry's pair when an entry for that index is
present (in a truthy config), else the default entry's pair when a default
entry is present, else the fallbacks — where a supplied fallback list is used
only when non-empty, an empty (falsy) or absent fallback being replaced by the
built-in default for that direction.  It never merges two sources and never
fails. -/
theorem claim_C2_amended (cfg : Option PdoConfigData) (i : Nat)
    (frx ftx : Option (List Nat)) :
    (∃ c e, cfg = some c ∧ c.isTruthy = true ∧ c.slaves.lookup i = some e
        ∧ get_slave_pdo cfg i frx ftx = (e.rx_pdo, e.tx_pdo))
    ∨ (∃ c e, cfg = some c ∧ c.isTruthy = true ∧ c.slaves.lookup i = none
        ∧ c.dflt = some e
        ∧ get_slave_pdo cfg i frx ftx = (e.rx_pdo, e.tx_pdo))
    ∨ ((cfg = none
        ∨ ∃ c, cfg = some c
            ∧ (c.isTruthy = false ∨ (c.slaves.lookup i = none ∧ c.dflt = none)))
        ∧ get_slave_pdo cfg i frx ftx
            = (listOr frx DEFAULT_RX_PDO, listOr ftx DEFAULT_TX_PDO)) := by
  match cfg with
  | none => exact Or.inr (Or.inr ⟨Or.inl rfl, rfl⟩)
  | some c =>
    by_cases ht : c.isTruthy
    · match hl : c.slaves.lookup i with
      | some e =>
          exact Or.inl ⟨c, e, rfl, ht, hl, by simp [get_slave_pdo, ht, hl]⟩
      | none =>
          match hd : c.dflt with
          | some e =>
              exact Or.inr (Or.inl ⟨c, e, rfl, ht, hl, hd,
                by simp [get_slave_pdo, ht, hl, hd]⟩)
          | none =>
              exact Or.inr (Or.inr ⟨Or.inr ⟨c, rfl, Or.inr ⟨hl, hd⟩⟩,
                by simp [get_slave_pdo, ht, hl, hd]⟩)
    · have ht' : c.isTruthy = false := by simpa using ht
      exact Or.inr (Or.inr ⟨Or.inr ⟨c, rfl, Or.inl ht'⟩,
        by simp [get_slave_pdo, ht']⟩)

/-- When `runWrites` reports an error, the failing write is the `n`-th planned
write, the error is the `RuntimeError` built from that write's fields and the
oracle's cause, and exactly the writes before position `n` were performed. -/
theorem runWrites_error (fail : Nat → Option String) (deviceName : String)
    (plan : List (SdoWrite × String)) :
    ∀ pos e, (runWrites fail deviceName pos plan).snd = some e →
      ∃ n w label cause, plan.get? n = some (w, label)
        ∧ fail (pos + n) = some cause
        ∧ e = PyExc.runtimeSdo deviceName w.index w.subindex label cause
        ∧ (runWrites fail deviceName pos plan).fst = (plan.take n).map Prod.fst := by
  induction plan with
  | nil => intro pos e h; simp [runWrites] at h
  | cons hd tl ih =>
    intro pos e h
    obtain ⟨w, label⟩ := hd
    match hf : fail pos with
    | some cause =>
        refine ⟨0, w, label, cause, rfl, by simpa using hf, ?_, ?_⟩
        · simp only [runWrites, hf] at h
          exact (Option.some_inj.mp h).symm
        · simp [runWrites, hf]
    | none =>
        simp only [runWrites, hf] at h
        obtain ⟨n, w2, label2, cause, hget, hfail, he, hfst⟩ := ih (pos + 1) e h
        refine ⟨n + 1, w2, label2, cause, by simpa using hget, ?_, he, ?_⟩
        · have : pos + (n + 1) = pos + 1 + n := by omega
          rw [this]; exact hfail
        · simp [runWrites, hf, hfst]

/-- `GenericSlave.configure` with `use_default_pdo=False` (slave.py lines
72-77): stores the engine reference and, when `rx_pdo or tx_pdo` is truthy
(either list non-empty), runs `configure_pdo_mapping`; otherwise it performs
no SDO writes. -/
def genericSlaveConfigure (fail : Nat → Option String) (deviceName : String)
    (rx tx : List Nat) : List SdoWrite × Option PyExc :=
  if !rx.isEmpty || !tx.isEmpty then
    configure_pdo_mapping fail deviceName (some rx) (some tx)
  else ([], none)

/-- The configuration work `EtherCATBus.open` does for one registered handle
(bus.py lines 420-424): resolve `(rx, tx)` with `get_slave_pdo` (no explicit
fallbacks) and call the handle's `configure`, modelled as
`GenericSlave.configure` with `use_default_pdo=False`.  The failure oracle is
per slave index. -/
def openDevConfigure (cfg : Option PdoConfigData) (fail : Nat → Nat → Option String)
    (names : Nat → String) (k : Nat) : List SdoWrite × Option PyExc :=
  let rxtx := get_slave_pdo cfg k none none
  genericSlaveConfigure (fail k) (names k) rxtx.fst rxtx.snd

/-- The PDO-configuration loop of `EtherCATBus.open` (bus.py lines 419-431):
handles are configured in registration order; the first failure is wrapped in
`ConfigurationError(f"PDO mapping failed for slave {k}: {exc}")` and stops the
loop; writes already performed — including earlier handles' complete
configurations — are kept, never rolled back. -/
def openConfigureHandles (cfg : Option PdoConfigData) (fail : Nat → Nat → Option String)
    (names : Nat → String) : List Nat → List (Nat × List SdoWrite) × Option PyExc
  | [] => ([], none)
  | k :: rest =>
    let r := openDevConfigure cfg fail names k
    match r.snd with
    | some e => ([(k, r.fst)], some (PyExc.configurationError k e))
    | none =>
      let more := openConfigureHandles cfg fail names rest
      ((k, r.fst) :: more.fst, more.snd)

/-- Failure oracle making the very first SDO write fail. -/
def failFirstWrite : Nat → Option String :=
  fun n => if n == 0 then some "boom" else none

/-- C7 counterexample: at a concrete failing SDO write,
`configure_pdo_mapping` surfaces a `RuntimeError` (naming device, object
index, sub-index and cause), not a `ConfigurationError` as the claim states —
the `ConfigurationError` only appears once `open()` wraps the failure. -/
theorem claim_C7_counterexample :
    (configure_pdo_mapping failFirstWrite "DevA" (some [0x1600]) (some [0x1A00])).snd
      = some (PyExc.runtimeSdo "DevA" 0x1C12 0 "clear SM2 RxPDO count" "boom")
    ∧ ((configure_pdo_mapping failFirstWrite "DevA" (some [0x1600]) (some [0x1A00])).snd.map
        PyExc.isConfigError) = some false := by
  exact ⟨rfl, rfl⟩

/-- C7 (amended): any failing SDO write makes `configure_pdo_mapping` stop —
the performed writes are exactly the plan prefix before the failing write —
and raise a `RuntimeError` naming the device, the failing object index and
sub-index, the write's label and the underlying cause.  When this happens
during `open()` for handle `k`, `open()` raises `ConfigurationError` naming
slave index `k` and wrapping that error, and the earlier handles' successful
configurations are left in place, not rolled back. -/
theorem claim_C7_amended :
    (∀ (fail : Nat → Option String) (deviceName : String) (rx tx : List Nat) (e : PyExc),
      (configure_pdo_mapping fail deviceName (some rx) (some tx)).snd = some e →
      ∃ n w label cause, (configurePlan rx tx).get? n = some (w, label)
        ∧ e = PyExc.runtimeSdo deviceName w.index w.subindex label cause
        ∧ (configure_pdo_mapping fail deviceName (some rx) (some tx)).fst
            = ((configurePlan rx tx).take n).map Prod.fst)
    ∧ (∀ (cfg : Option PdoConfigData) (fail : Nat → Nat → Option String)
        (names : Nat → String) (handles : List Nat)
        (acc : List (Nat × List SdoWrite)) (exc : PyExc),
      openConfigureHandles cfg fail names handles = (acc, some exc) →
      ∃ pre k post e, handles = pre ++ k :: post
        ∧ exc = PyExc.configurationError k e
        ∧ (openDevConfigure cfg fail names k).snd = some e
        ∧ acc = pre.map (fun j => (j, (openDevConfigure cfg fail names j).fst))
            ++ [(k, (openDevConfigure cfg fail names k).fst)]
        ∧ ∀ j ∈ pre, (openDevConfigure cfg fail names j).snd = none) := by
  constructor
  · intro fail deviceName rx tx e h
    obtain ⟨n, w, label, cause, hget, hfail, he, hfst⟩ :=
      runWrites_error fail deviceName (configurePlan rx tx) 0 e h
    exact ⟨n, w, label, cause, hget, he, hfst⟩
  · intro cfg fail names handles
    induction handles with
    | nil => intro acc exc h; simp [openConfigureHandles] at h
    | cons k rest ih =>
      intro acc exc h
      match hr : (openDevConfigure cfg fail names k).snd with
      | some e =>
          simp only [openConfigureHandles, hr] at h
          have hacc : [(k, (openDevConfigure cfg fail names k).fst)] = acc :=
            congrArg Prod.fst h
          have hexc : some (PyExc.configurationError k e) = some exc :=
            congrArg Prod.snd h
          refine ⟨[], k, rest, e, rfl, ?_, hr, ?_, by intro j hj; simp at hj⟩
          · exact (Option.some_inj.mp hexc).symm
          · simp [← hacc]
      | none =>
          simp only [openConfigureHandles, hr] at h
          have hacc : acc = (k, (openDevConfigure cfg fail names k).fst)
              :: (openConfigureHandles cfg fail names rest).fst :=
            (congrArg Prod.fst h).symm
          have hrest : (openConfigureHandles cfg fail names rest).snd = some exc :=
            congrArg Prod.snd h
          obtain ⟨pre, k2, post, e, hsplit, hexc, hdev, haccr, hpre⟩ :=
            ih (openConfigureHandles cfg fail names rest).fst exc
              (by rw [← hrest])
          refine ⟨k :: pre, k2, post, e, by simp [hsplit], hexc, hdev, ?_, ?_⟩
          · simp [hacc, haccr]
          · intro j hj
            rcases List.mem_cons.mp hj with hj | hj
            · subst hj; exact hr
            · exact hpre j hj

/-- Per-slave failure oracle: slave 1's third write (position 2, the first
RxPDO entry write) fails; every other write succeeds. -/
def failSlaveOneThirdWrite : Nat → Nat → Option String :=
  fun k n => if k == 1 && n == 2 then some "io error" else none

/-- C7 witness: with no mapping file, one registered handle at index 1, and
slave 1's third SDO write failing, the open() configuration loop stops with a
`ConfigurationError` naming slave 1, wrapping the `RuntimeError` for object
0x1C12 sub-index 1, after performing only the two zero-count writes. -/
theorem claim_C7_witness :
    ∃ pre k post e, ([1] : List Nat) = pre ++ k :: post
      ∧ PyExc.configurationError 1
          (PyExc.runtimeSdo "Dev" 0x1C12 1 "RxPDO entry" "io error")
        = PyExc.configurationError k e
      ∧ (openDevConfigure none failSlaveOneThirdWrite (fun _ => "Dev") k).snd = some e
      ∧ ([(1, [SdoWrite.mk 0x1C12 0 (packB 0), SdoWrite.mk 0x1C13 0 (packB 0)])]
          : List (Nat × List SdoWrite))
        = pre.map (fun j => (j, (openDevConfigure none failSlaveOneThirdWrite
            (fun _ => "Dev") j).fst))
          ++ [(k, (openDevConfigure none failSlaveOneThirdWrite (fun _ => "Dev") k).fst)]
      ∧ ∀ j ∈ pre, (openDevConfigure none failSlaveOneThirdWrite
          (fun _ => "Dev") j).snd = none :=
  claim_C7_amended.2 none failSlaveOneThirdWrite (fun _ => "Dev") [1]
    [(1, [SdoWrite.mk 0x1C12 0 (packB 0), SdoWrite.mk 0x1C13 0 (packB 0)])]
    (PyExc.configurationError 1
      (PyExc.runtimeSdo "Dev" 0x1C12 1 "RxPDO entry" "io error"))
    (by decide)

/-- JSON values as produced by `json.loads`.  Numbers are modelled as
naturals, which covers PDO mapping documents (16-bit object indices); object
fields are an association list with distinct keys, as in a parsed Python
dict. -/
inductive Json where
  | null
  | bool (b : Bool)
  | num (n : Nat)
  | str (s : String)
  | arr (xs : List Json)
  | obj (fields : List (String × Json))

/-- Dict lookup on parsed JSON object fields. -/
def lookupField (fields : List (String × Json)) (key : String) : Option Json :=
  match fields with
  | [] => none
  | (k, v) :: rest => if k = key then some v else lookupField rest key

/-- Value of a hexadecimal digit character, upper or lower case. -/
def hexDigitVal (c : Char) : Option Nat :=
  if c.isDigit then some (c.toNat - 48)
  else if 97 ≤ c.toNat ∧ c.toNat ≤ 102 then some (c.toNat - 87)
  else if 65 ≤ c.toNat ∧ c.toNat ≤ 70 then some (c.toNat - 55)
  else none

/-- Value of a decimal digit character. -/
def decDigitVal (c : Char) : Option Nat :=
  if c.isDigit then some (c.toNat - 48) else none

/-- Fold digit characters into a number; `none` on any non-digit. -/
def parseDigits (digitVal : Char → Option Nat) (base : Nat) :
    List Char → Nat → Option Nat
  | [], acc => some acc
  | c :: cs, acc =>
    match digitVal c with
    | some d => parseDigits digitVal base cs (acc * base + d)
    | none => none

/-- Python `int(s)` on a string, base 10 (sign and whitespace handling
omitted: the modelled documents use plain digit strings): `ValueError` on the
empty string or any non-digit character. -/
def pyIntBase10 (s : String) : Except PyExc Nat :=
  match s.toList with
  | [] => Except.error (PyExc.valueError s)
  | cs =>
    match parseDigits decDigitVal 10 cs 0 with
    | some n => Except.ok n
    | none => Except.error (PyExc.valueError s)

/-- Python `int(s, 16)` on a `"0x"`-prefixed string. -/
def pyIntHex (s : String) : Except PyExc Nat :=
  match s.toList.drop 2 with
  | [] => Except.error (PyExc.valueError s)
  | cs =>
    match parseDigits hexDigitVal 16 cs 0 with
    | some n => Except.ok n
    | none => Except.error (PyExc.valueError s)

/-- The element conversion of `_parse_list` (pdo.py lines 52-54):
`int(v, 16) if isinstance(v, str) and v.startswith("0x") else int(v)`.
Python's `int` accepts bools; anything non-numeric raises `ValueError` (or
`TypeError`, not distinguished here). -/
def pyIntValue : Json → Except PyExc Nat
  | .num n => Except.ok n
  | .bool b => Except.ok (if b then 1 else 0)
  | .str s => if s.startsWith "0x" then pyIntHex s else pyIntBase10 s
  | _ => Except.error (PyExc.valueError "int() argument")

/-- `_parse_list(lst)`: iterate the value and convert each element.  Python
iteration over a string yields one-character strings, over a dict its keys;
non-iterables raise `TypeError`. -/
def parse_list : Json → Except PyExc (List Nat)
  | .arr xs => xs.mapM pyIntValue
  | .str s => (s.toList.map (fun c => Json.str c.toString)).mapM pyIntValue
  | .obj fields => (fields.map (fun kv => Json.str kv.fst)).mapM pyIntValue
  | _ => Except.error (PyExc.typeOrAttributeError "not iterable")

/-- Build one entry dict from a JSON value: `val.get("rx_pdo", [])` and
`val.get("tx_pdo", [])` require a dict (`AttributeError` otherwise), then both
lists are converted by `_parse_list`. -/
def parseEntry (v : Json) : Except PyExc PdoEntry := do
  match v with
  | .obj fields =>
    let rx ← parse_list ((lookupField fields "rx_pdo").getD (Json.arr []))
    let tx ← parse_list ((lookupField fields "tx_pdo").getD (Json.arr []))
    return PdoEntry.mk rx tx
  | _ => Except.error (PyExc.typeOrAttributeError "get")

/-- The `slaves` loop of `load_pdo_config` (pdo.py lines 63-67): each key goes
through `int(key)` (base 10) and each value through the entry parse; any
failure propagates. -/
def parseSlaves : List (String × Json) → Except PyExc (List (Nat × PdoEntry))
  | [] => Except.ok []
  | (k, v) :: rest => do
    let key ← pyIntBase10 k
    let entry ← parseEntry v
    let more ← parseSlaves rest
    return (key, entry) :: more

/-- `load_pdo_config(path)` (pdo.py lines 18-68).  The `try` block covers only
reading and `json.loads`; `doc = none` models a read or JSON-decode failure,
which is caught and yields `None`.  Everything after the `try` — the default
entry parse, `raw.get("slaves", {}).items()` and the per-slave `int(key)` /
`_parse_list` conversions — runs unprotected, so its exceptions escape
(`Except.error`).  A valid-JSON document whose top level is not an object
raises at `"default" in raw` / `raw.get` (`TypeError`/`AttributeError`). -/
def load_pdo_config (doc : Option Json) : Except PyExc (Option PdoConfigData) :=
  match doc with
  | none => Except.ok none
  | some (Json.obj fields) => do
    let dflt ← match lookupField fields "default" with
      | some d => Except.map some (parseEntry d)
      | none => Except.ok (none : Option PdoEntry)
    match (lookupField fields "slaves").getD (Json.obj []) with
    | Json.obj sfields => do
      let slaves ← parseSlaves sfields
      return some (PdoConfigData.mk dflt slaves)
    | _ => Except.error (PyExc.typeOrAttributeError "items")
  | some _ => Except.error (PyExc.typeOrAttributeError "document top level is not an object")

/-- A syntactically valid JSON document with a malformed slave key. -/
def badSlaveKeyDoc : Json :=
  Json.obj [("slaves", Json.obj
    [("abc", Json.obj [("rx_pdo", Json.arr []), ("tx_pdo", Json.arr [])])])]

/-- C8: the claim says loading never raises on malformed documents and a
failed load resolves to the built-in defaults.  The fallback half is true —
resolving against a `None` config yields `([0x1600], [0x1A00])` — but the
never-raises half is contradicted by the code: `int(key)` runs outside the
`try`, so the valid-JSON document `{"slaves": {"abc": ...}}` raises
`ValueError`, escaping `load_pdo_config` — against the spec and the function's
own docstring ("Returns ... or None on error"). -/
theorem claim_C8_load_raises :
    load_pdo_config (some badSlaveKeyDoc) = Except.error (PyExc.valueError "abc")
    ∧ ∀ i, get_slave_pdo none i none none = (DEFAULT_RX_PDO, DEFAULT_TX_PDO) :=
  ⟨rfl, fun _ => rfl⟩

/-- EtherCAT state constants as exposed by pysoem (SOEM's `ethercattype.h`):
`EC_STATE_NONE = 0x00`, `INIT = 0x01`, `PRE_OP = 0x02`, `BOOT = 0x03`,
`SAFE_OP = 0x04`, `OPERATIONAL = 0x08`; `EC_STATE_ACK` and `EC_STATE_ERROR`
are both `0x10`. -/
def NONE_STATE : Nat := 0x00

/-- pysoem `INIT_STATE`. -/
def INIT_STATE : Nat := 0x01

/-- pysoem `PREOP_STATE`. -/
def PREOP_STATE : Nat := 0x02

/-- pysoem `BOOT_STATE`. -/
def BOOT_STATE : Nat := 0x03

/-- pysoem `SAFEOP_STATE`. -/
def SAFEOP_STATE : Nat := 0x04

/-- pysoem `OP_STATE`. -/
def OP_STATE : Nat := 0x08

/-- pysoem `STATE_ACK` (same raw value as `STATE_ERROR`). -/
def STATE_ACK : Nat := 0x10

/-- pysoem `STATE_ERROR`. -/
def STATE_ERROR : Nat := 0x10

/-- Engine responses consumed by one `_recover_slave` call: whether
`slave.reconfig()` succeeds, whether `slave.recover()` succeeds, and the state
observed after the re-poll `slave.state_check(OP_STATE)`. -/
structure RecoverEnv where
  reconfigOk : Bool
  recoverOk : Bool
  repoll : Nat
deriving Repr, DecidableEq

/-- The engine calls `_recover_slave` can make, in order. -/
inductive RecAction where
  | writeState (s : Nat)
  | reconfig
  | stateCheck
  | recover
deriving Repr, DecidableEq

/-- Outcome of one `_recover_slave` call: engine calls made, the slave's
`state` attribute, and its `is_lost` flag afterwards. -/
structure RecoverResult where
  actions : List RecAction
  state : Nat
  isLost : Bool
deriving Repr, DecidableEq

/-- `EtherCATBus._recover_slave(slave, pos)` (bus.py lines 782-806): first the
`if`/`elif` chain on `slave.state` — acknowledge `SAFEOP+ERROR`, push `SAFEOP`
to `OP`, `reconfig()` any other non-NONE state, or re-poll a not-yet-lost NONE
slave and mark it lost if still NONE — then, unconditionally in the same call,
the trailing `if slave.is_lost:` block: `recover()` when the state is NONE
(clearing `is_lost` on success), otherwise clear `is_lost`. -/
def recover_slave (env : RecoverEnv) (state : Nat) (isLost : Bool) : RecoverResult :=
  let r1 : RecoverResult :=
    if state = SAFEOP_STATE + STATE_ERROR then
      RecoverResult.mk [RecAction.writeState (SAFEOP_STATE + STATE_ACK)]
        (SAFEOP_STATE + STATE_ACK) isLost
    else if state = SAFEOP_STATE then
      RecoverResult.mk [RecAction.writeState OP_STATE] OP_STATE isLost
    else if state > NONE_STATE then
      RecoverResult.mk [RecAction.reconfig] state
        (if env.reconfigOk then false else isLost)
    else if !isLost then
      RecoverResult.mk [RecAction.stateCheck] env.repoll
        (if env.repoll = NONE_STATE then true else isLost)
    else
      RecoverResult.mk [] state isLost
  if r1.isLost then
    if r1.state = NONE_STATE then
      RecoverResult.mk (r1.actions ++ [RecAction.recover]) r1.state
        (if env.recoverOk then false else true)
    else
      RecoverResult.mk r1.actions r1.state false
  else r1

/-- Modelled from the spec: the per-device recovery decision table of spec
section 4.5, read as a single decision evaluated once per call, first matching
row applying — exactly the rows the claim lists. -/
def recover_slave_specTable (env : RecoverEnv) (state : Nat) (isLost : Bool) :
    RecoverResult :=
  if state = SAFEOP_STATE + STATE_ERROR then
    RecoverResult.mk [RecAction.writeState (SAFEOP_STATE + STATE_ACK)]
      (SAFEOP_STATE + STATE_ACK) isLost
  else if state = SAFEOP_STATE then
    RecoverResult.mk [RecAction.writeState OP_STATE] OP_STATE isLost
  else if state > NONE_STATE then
    RecoverResult.mk [RecAction.reconfig] state
      (if env.reconfigOk then false else isLost)
  else if !isLost then
    RecoverResult.mk [RecAction.stateCheck] env.repoll
      (if env.repoll = NONE_STATE then true else isLost)
  else if state = NONE_STATE then
    RecoverResult.mk [RecAction.recover] state
      (if env.recoverOk then false else isLost)
  else
    RecoverResult.mk [] state false

/-- C4 counterexample: a not-yet-lost slave observed in state NONE whose
re-poll still reports NONE.  The claim's decision table prescribes only
"re-poll and mark lost"; the code additionally runs the trailing lost-block in
the same call, attempting `recover()` and clearing the fresh lost flag on
success. -/
theorem claim_C4_counterexample :
    recover_slave (RecoverEnv.mk true true 0) 0 false
      ≠ recover_slave_specTable (RecoverEnv.mk true true 0) 0 false := by
  decide

/-- C4 (amended): one `_recover_slave` call runs the spec's state rows and
then, in the same call, a lost-resolution step, giving exactly this outcome
table: SAFE-OP with error flag → acknowledge and write state; SAFE-OP →
request OP and write state; any other state above NONE → reconfigure; in all
three of those rows the lost flag ends cleared regardless of `reconfig`'s
outcome.  State NONE and not lost → re-poll; if the re-poll leaves NONE the
slave is marked lost and, immediately in the same call, `recover()` is
attempted, the flag ending set only if `recover()` fails.  Already lost with
state NONE → `recover()`, flag ending set only if it fails. -/
theorem claim_C4_amended (env : RecoverEnv) (s : Nat) (l : Bool) :
    (s = SAFEOP_STATE + STATE_ERROR →
      recover_slave env s l
        = RecoverResult.mk [RecAction.writeState (SAFEOP_STATE + STATE_ACK)]
            (SAFEOP_STATE + STATE_ACK) false)
    ∧ (s = SAFEOP_STATE →
      recover_slave env s l
        = RecoverResult.mk [RecAction.writeState OP_STATE] OP_STATE false)
    ∧ (s ≠ SAFEOP_STATE + STATE_ERROR → s ≠ SAFEOP_STATE → s > NONE_STATE →
      recover_slave env s l = RecoverResult.mk [RecAction.reconfig] s false)
    ∧ (s = NONE_STATE → l = false → env.repoll ≠ NONE_STATE →
      recover_slave env s l
        = RecoverResult.mk [RecAction.stateCheck] env.repoll false)
    ∧ (s = NONE_STATE → l = false → env.repoll = NONE_STATE →
      recover_slave env s l
        = RecoverResult.mk [RecAction.stateCheck, RecAction.recover] NONE_STATE
            (!env.recoverOk))
    ∧ (s = NONE_STATE → l = true →
      recover_slave env s l
        = RecoverResult.mk [RecAction.recover] NONE_STATE (!env.recoverOk)) := by
  obtain ⟨rc, rv, rp⟩ := env
  refine ⟨?_, ?_, ?_, ?_, ?_, ?_⟩
  · rintro rfl
    cases l <;> cases rc <;> simp [recover_slave, SAFEOP_STATE, STATE_ERROR, STATE_ACK, NONE_STATE]
  · rintro rfl
    cases l <;> simp [recover_slave, SAFEOP_STATE, STATE_ERROR, STATE_ACK, OP_STATE, NONE_STATE]
  · intro h1 h2 h3
    have hne : ¬ s = NONE_STATE := by simp only [NONE_STATE] at h3 ⊢; omega
    simp only [recover_slave]
    rw [if_neg h1, if_neg h2, if_pos h3]
    cases rc <;> cases l <;> simp [hne]
  · rintro rfl rfl h
    simp only [NONE_STATE] at h
    simp [recover_slave, SAFEOP_STATE, STATE_ERROR, STATE_ACK, NONE_STATE, h]
  · rintro rfl rfl h
    subst h
    cases rv <;> simp [recover_slave, SAFEOP_STATE, STATE_ERROR, STATE_ACK, NONE_STATE]
  · rintro rfl rfl
    cases rv <;> simp [recover_slave, SAFEOP_STATE, STATE_ERROR, STATE_ACK, NONE_STATE]

/-- C4 witness: a lost slave in state NONE whose `recover()` succeeds makes
exactly the `recover` engine call and ends with the lost flag cleared. -/
theorem claim_C4_witness :
    recover_slave (RecoverEnv.mk true true 0) 0 true
      = RecoverResult.mk [RecAction.recover] NONE_STATE (!true) :=
  (claim_C4_amended (RecoverEnv.mk true true 0) 0 true).2.2.2.2.2 rfl rfl

/-- Observations one `_check_loop` iteration makes of the shared bus state:
whether a reconnection session is active, whether the monitored body raises,
whether the master handle is present and flagged operational, the last working
counter against the expected one, the pending `do_check_state` flag, the
per-slave states after `read_state()`, and whether auto-reconnect is
enabled. -/
structure CheckCtx where
  reconnecting : Bool
  raises : Bool
  masterPresent : Bool
  inOp : Bool
  actualWkc : Nat
  expectedWkc : Nat
  doCheckState : Bool
  slaveStates : List Nat
  autoReconnect : Bool
deriving Repr, DecidableEq

/-- The consecutive-failure counter after the monitored body of one
`_check_loop` iteration (bus.py lines 659-681): an exception increments it; a
working-counter deficit or a pending state-check request on an operational
master re-reads slave states and increments it exactly when some slave is not
OPERATIONAL (resetting it when all are); otherwise it resets. -/
def checkBodyCounter (ctx : CheckCtx) (counter : Nat) : Nat :=
  if ctx.raises then counter + 1
  else if ctx.masterPresent && ctx.inOp
      && (decide (ctx.actualWkc < ctx.expectedWkc) || ctx.doCheckState) then
    if ctx.slaveStates.all (fun s => s == OP_STATE) then 0 else counter + 1
  else 0

/-- One `_check_loop` iteration (bus.py lines 653-693): while reconnecting the
counter is reset and the iteration just sleeps; otherwise the body updates the
counter and the reconnect trigger fires exactly when the updated counter has
reached `_RECONNECT_THRESHOLD = 7`, auto-reconnect is enabled and no
reconnection is active, resetting the counter to zero.  Returns the new
counter and whether `_attempt_reconnect` was triggered. -/
def check_iter (ctx : CheckCtx) (counter : Nat) : Nat × Bool :=
  if ctx.reconnecting then (0, false)
  else
    let c1 := checkBodyCounter ctx counter
    if decide (7 ≤ c1) && ctx.autoReconnect && !ctx.reconnecting then (0, true)
    else (c1, false)

/-- Iterations of `_check_loop` folded over a list of observations, stopping
at the first triggered reconnect.  Returns the final counter and whether a
reconnect was ever triggered. -/
def check_run : List CheckCtx → Nat → Nat × Bool
  | [], counter => (counter, false)
  | ctx :: rest, counter =>
    let r := check_iter ctx counter
    if r.snd then (r.fst, true) else check_run rest r.fst

/-- The updated counter grows by at most one per iteration body. -/
theorem checkBodyCounter_le (ctx : CheckCtx) (counter : Nat) :
    checkBodyCounter ctx counter ≤ counter + 1 := by
  unfold checkBodyCounter
  split
  · omega
  · split
    · split <;> omega
    · omega

/-- The trigger fires exactly when not reconnecting, auto-reconnect enabled,
and the updated counter has reached 7. -/
theorem check_iter_trigger_iff (ctx : CheckCtx) (counter : Nat) :
    (check_iter ctx counter).snd = true ↔
      (ctx.reconnecting = false ∧ ctx.autoReconnect = true
        ∧ 7 ≤ checkBodyCounter ctx counter) := by
  unfold check_iter
  cases hrc : ctx.reconnecting
  · cases hat : ctx.autoReconnect
    · by_cases h7 : 7 ≤ checkBodyCounter ctx counter <;> simp [h7]
    · by_cases h7 : 7 ≤ checkBodyCounter ctx counter <;> simp [h7]
  · simp

/-- A triggered run needs at least `7 - counter` iterations. -/
theorem check_run_trigger_length (ctxs : List CheckCtx) :
    ∀ counter n, check_run ctxs counter = (n, true) → 7 ≤ counter + ctxs.length := by
  induction ctxs with
  | nil => intro counter n h; simp [check_run] at h
  | cons ctx rest ih =>
    intro counter n h
    simp only [check_run] at h
    cases htr : (check_iter ctx counter).snd
    · rw [htr] at h
      simp at h
      have := ih (check_iter ctx counter).fst n h
      have hle : (check_iter ctx counter).fst ≤ counter + 1 := by
        unfold check_iter
        cases hrc : ctx.reconnecting
        · simp only [Bool.false_eq_true, if_false]
          split
          · omega
          · simpa using checkBodyCounter_le ctx counter
        · simp
      simp only [List.length_cons]
      omega
    · have h7 := (check_iter_trigger_iff ctx counter).mp htr
      have := checkBodyCounter_le ctx counter
      simp only [List.length_cons]
      omega

/-- C5: `_check_loop` triggers `_attempt_reconnect` exactly when its updated
consecutive-failure counter has reached the fixed threshold 7, auto-reconnect
is enabled and no reconnection session is active; on triggering the counter is
reset to zero; while a reconnection session is active the iteration holds the
counter at zero and never triggers; and a run started at counter zero can only
trigger after at least 7 iterations. -/
theorem claim_C5_check_trigger :
    (∀ ctx counter, (check_iter ctx counter).snd = true ↔
      (ctx.reconnecting = false ∧ ctx.autoReconnect = true
        ∧ 7 ≤ checkBodyCounter ctx counter))
    ∧ (∀ ctx counter, (check_iter ctx counter).snd = true →
        (check_iter ctx counter).fst = 0)
    ∧ (∀ ctx counter, ctx.reconnecting = true → check_iter ctx counter = (0, false))
    ∧ (∀ ctxs n, check_run ctxs 0 = (n, true) → 7 ≤ ctxs.length) := by
  refine ⟨check_iter_trigger_iff, ?_, ?_, ?_⟩
  · intro ctx counter h
    unfold check_iter at h ⊢
    cases hrc : ctx.reconnecting
    · rw [hrc] at h
      simp only [Bool.false_eq_true, if_false] at h ⊢
      split at h
      · simp_all
      · simp at h
    · simp [hrc]
  · intro ctx counter h
    simp [check_iter, h]
  · intro ctxs n h
    simpa using check_run_trigger_length ctxs 0 n h

/-- A health-check observation in which the monitored body raises and
auto-reconnect is enabled. -/
def failingCheckCtx : CheckCtx :=
  CheckCtx.mk false true true true 0 1 false [] true

/-- C5 witness: seven consecutive failing iterations from counter zero do
trigger, and the theorem's bound confirms no shorter run could. -/
theorem claim_C5_witness : 7 ≤ (List.replicate 7 failingCheckCtx).length :=
  claim_C5_check_trigger.2.2.2 (List.replicate 7 failingCheckCtx) 0 (by decide)

/-- Counters and flags of the bus touched by `_processdata_loop`:
`_comm_ok_count`, `_comm_error_count`, `master.do_check_state`,
`_actual_wkc`. -/
structure PdState where
  commOk : Nat
  commErr : Nat
  doCheckState : Bool
  actualWkc : Nat
deriving Repr, DecidableEq

/-- Observations one `_processdata_loop` iteration makes: whether a
reconnection session is active, whether the engine's send/receive raises, the
received working counter and the engine's expected one, and whether the bus is
flagged operational (`master.in_op`). -/
structure PdCtx where
  reconnecting : Bool
  sendRecvRaises : Bool
  wkc : Nat
  expectedWkc : Nat
  inOp : Bool
deriving Repr, DecidableEq

/-- One `_processdata_loop` iteration (bus.py lines 617-632): while
reconnecting, sleep and continue untouched; otherwise send and receive — an
engine exception is swallowed, incrementing only the error counter — then
compare the received working counter to the expected one: a mismatch
increments the error counter and sets `do_check_state` only when the bus is
flagged operational; a match increments the ok counter. -/
def processdata_iter (ctx : PdCtx) (st : PdState) : PdState :=
  if ctx.reconnecting then st
  else if ctx.sendRecvRaises then { st with commErr := st.commErr + 1 }
  else
    let st1 := { st with actualWkc := ctx.wkc }
    if ctx.wkc ≠ ctx.expectedWkc then
      { st1 with commErr := st1.commErr + 1,
                 doCheckState := if ctx.inOp then true else st1.doCheckState }
    else { st1 with commOk := st1.commOk + 1 }

/-- The loop never terminates on a bad cycle: it is a total fold over its
iterations. -/
def processdata_run (ctxs : List PdCtx) (st : PdState) : PdState :=
  ctxs.foldl (fun s c => processdata_iter c s) st

/-- C6: in a non-paused `_processdata_loop` iteration — an engine exception
during send/receive is swallowed, increments only the error counter, and the
loop continues with the next iteration; a working-counter mismatch increments
the error counter and turns the state-check-requested flag on exactly when the
bus is flagged operational (the flag, when previously clear, ends set iff
`in_op`); a match increments the ok counter. -/
theorem claim_C6_processdata (ctx : PdCtx) (st : PdState)
    (hrc : ctx.reconnecting = false) :
    (ctx.sendRecvRaises = true →
      processdata_iter ctx st = { st with commErr := st.commErr + 1 }
      ∧ ∀ rest, processdata_run (ctx :: rest) st
          = processdata_run rest { st with commErr := st.commErr + 1 })
    ∧ (ctx.sendRecvRaises = false → ctx.wkc ≠ ctx.expectedWkc →
      processdata_iter ctx st
        = { st with actualWkc := ctx.wkc, commErr := st.commErr + 1,
                    doCheckState := (st.doCheckState || ctx.inOp) })
    ∧ (ctx.sendRecvRaises = false → ctx.wkc = ctx.expectedWkc →
      processdata_iter ctx st
        = { st with actualWkc := ctx.wkc, commOk := st.commOk + 1 }) := by
  refine ⟨?_, ?_, ?_⟩
  · intro hraise
    constructor
    · simp [processdata_iter, hrc, hraise]
    · intro rest
      simp [processdata_run, processdata_iter, hrc, hraise]
  · intro hraise hne
    cases hop : ctx.inOp <;>
      simp [processdata_iter, hrc, hraise, hne, hop]
  · intro hraise heq
    simp [processdata_iter, hrc, hraise, heq]

/-- C6 witness: a concrete failing iteration — engine raise swallowed, error
counter bumped, nothing else changed. -/
theorem claim_C6_witness :
    processdata_iter (PdCtx.mk false true 0 1 true) (PdState.mk 0 0 false 0)
      = PdState.mk 0 1 false 0 :=
  ((claim_C6_processdata (PdCtx.mk false true 0 1 true) (PdState.mk 0 0 false 0)
      rfl).1 rfl).1

/-- The three loop threads of an open bus (`_pd_thread`, `_pdo_thread`,
`_check_thread`), `true` when the field holds a running thread. -/
structure BusThreads where
  pd : Bool
  pdoUpd : Bool
  check : Bool
deriving Repr, DecidableEq

/-- The engine handle (`pysoem.Master`) with its `in_op` flag. -/
structure MasterHandle where
  inOp : Bool
deriving Repr, DecidableEq

/-- The `EtherCATBus` fields `close()` touches: the optional master handle,
the thread fields, and the registered slave handles (by index). -/
structure BusState where
  master : Option MasterHandle
  threads : BusThreads
  slaves : List Nat
deriving Repr, DecidableEq

/-- One device's `safe_stop()`, which may raise (oracle `raisesOn`). -/
def safeStopCall (raisesOn : Nat → Bool) (h : Nat) : Except PyExc Unit :=
  if raisesOn h then Except.error (PyExc.valueError "safe_stop failed")
  else Except.ok ()

/-- The `for handle in self._slaves: try: handle.safe_stop() except: pass`
loop of `close()` (bus.py lines 557-562): every handle is attempted in order;
a raising handle is swallowed and does not stop the loop.  Returns the
attempted handles. -/
def runSafeStops (raisesOn : Nat → Bool) : List Nat → List Nat
  | [] => []
  | h :: rest =>
    match safeStopCall raisesOn h with
    | Except.ok _ => h :: runSafeStops raisesOn rest
    | Except.error _ => h :: runSafeStops raisesOn rest

/-- `EtherCATBus.close()` (bus.py lines 555-572) with `_stop_threads` (lines
604-613): best-effort `safe_stop` on every registered handle, clear `in_op`
when a master is present, stop and null the three thread fields, then close
and null the master (a no-op when it is already `None`).  Nothing in it can
raise: device exceptions are swallowed. -/
def closeBus (raisesOn : Nat → Bool) (b : BusState) :
    Except PyExc (BusState × List Nat) :=
  let attempted := runSafeStops raisesOn b.slaves
  Except.ok (BusState.mk none (BusThreads.mk false false false) b.slaves, attempted)

/-- Every handle is attempted regardless of which handles raise. -/
theorem runSafeStops_all (raisesOn : Nat → Bool) (slaves : List Nat) :
    runSafeStops raisesOn slaves = slaves := by
  induction slaves with
  | nil => rfl
  | cons h rest ih =>
    unfold runSafeStops safeStopCall
    split <;> simp [ih]

/-- C9: `close()` on any bus state — including one never opened (no master,
no threads) — returns without raising, leaves the bus idle (no engine handle,
no running loop threads), and attempts `safe_stop` on every registered handle
even when some of them raise; calling `close()` again on the resulting state
raises nothing and leaves the same idle state. -/
theorem claim_C9_close_idempotent (raisesOn : Nat → Bool) (b : BusState) :
    closeBus raisesOn b
      = Except.ok (BusState.mk none (BusThreads.mk false false false) b.slaves,
          b.slaves)
    ∧ closeBus raisesOn (BusState.mk none (BusThreads.mk false false false) b.slaves)
      = Except.ok (BusState.mk none (BusThreads.mk false false false) b.slaves,
          b.slaves) := by
  constructor <;> simp [closeBus, runSafeStops_all]

/-- The `network` section of the configuration file as read by
`_read_network_config` (bus.py lines 141-147). -/
structure NetworkSection where
  adapter : Option String
  cycle_ms : Option Nat
deriving Repr, DecidableEq

/-- Python truthiness of `net.get("adapter")`: present and non-empty. -/
def truthyStr : Option String → Bool
  | some s => !s.isEmpty
  | none => false

/-- Python truthiness of `net.get("cycle_ms")`: present and non-zero. -/
def truthyNat : Option Nat → Bool
  | some n => decide (n ≠ 0)
  | none => false

/-- The adapter/cycle resolution of `EtherCATBus.__init__` when a config file
path is given (bus.py lines 89-96): the file's adapter is used only when the
`adapter` argument is `None`; the file's `cycle_ms` is used exactly when the
`cycle_time_ms` argument equals the default value `10` (and the file value is
truthy). -/
def bus_init_params (adapter : Option String) (cycle_time_ms : Nat)
    (net : NetworkSection) : Option String × Nat :=
  let adapter1 := if adapter.isNone && truthyStr net.adapter then net.adapter
                  else adapter
  let cycle1 := if (cycle_time_ms == 10) && truthyNat net.cycle_ms then
                  net.cycle_ms.getD cycle_time_ms
                else cycle_time_ms
  (adapter1, cycle1)

/-- C10: an explicitly passed adapter always takes precedence over the file's
`network.adapter`; and when the file carries a truthy `network.cycle_ms`, it
overrides the cycle time exactly when the constructor's `cycle_time_ms`
argument equals the default `10` — an explicit `cycle_time_ms=10` is silently
replaced, any other explicit value is kept. -/
theorem claim_C10_init_precedence (adapter : Option String) (cycle_time_ms : Nat)
    (net : NetworkSection) :
    (∀ s, adapter = some s →
      (bus_init_params adapter cycle_time_ms net).fst = some s)
    ∧ (∀ m, net.cycle_ms = some m → m ≠ 0 →
      (bus_init_params adapter cycle_time_ms net).snd
        = if cycle_time_ms = 10 then m else cycle_time_ms) := by
  constructor
  · rintro s rfl
    simp [bus_init_params]
  · intro m hm hm0
    by_cases hc : cycle_time_ms = 10 <;>
      simp [bus_init_params, hm, hm0, hc, truthyNat]

/-- C10 witness: explicit adapter kept over the file's; explicit
`cycle_time_ms=10` replaced by the file's 5. -/
theorem claim_C10_witness :
    (bus_init_params (some "eth0") 10 (NetworkSection.mk (some "fileAd") (some 5))).fst
        = some "eth0"
    ∧ (bus_init_params (some "eth0") 10 (NetworkSection.mk (some "fileAd") (some 5))).snd
        = if 10 = 10 then 5 else 10 :=
  ⟨(claim_C10_init_precedence (some "eth0") 10
      (NetworkSection.mk (some "fileAd") (some 5))).1 "eth0" rfl,
   (claim_C10_init_precedence (some "eth0") 10
      (NetworkSection.mk (some "fileAd") (some 5))).2 5 rfl (by decide)⟩

/-- Externally visible events of `_attempt_reconnect` (bus.py lines 699-780),
in program order.  `waitBackoff s` is the `self._check_stop.wait(backoff)`
sleep after a failed attempt, in whole seconds (the backoff values 1, 2, 4, 8,
10 are all integral). -/
inductive RcEvent where
  | setReconnecting
  | clearInOp
  | closeMaster
  | attemptStart
  | configureHandle (k : Nat)
  | seedTx (k : Nat)
  | setInOp
  | resetErrorCount
  | onReconnect (k : Nat)
  | clearReconnecting
  | waitBackoff (secs : Nat)
deriving Repr, DecidableEq

/-- Whether an event belongs to the success tail of the procedure (an
`on_reconnect` invocation or the clearing of the reconnecting flag). -/
def RcEvent.isSuccessTail : RcEvent → Bool
  | .onReconnect _ => true
  | .clearReconnecting => true
  | _ => false

/-- The wait duration of an event, when it is a backoff wait. -/
def waitSecs : RcEvent → Option Nat
  | .waitBackoff s => some s
  | _ => none

/-- One failed reconnection attempt (bus.py lines 772-780): the attempt body
raises at some stage before reaching OP — never past the `on_reconnect` /
flag-clearing tail — so the except branch closes the master and waits the
current backoff. -/
def failedAttempt (backoff : Nat) : List RcEvent :=
  [RcEvent.attemptStart, RcEvent.closeMaster, RcEvent.waitBackoff backoff]

/-- The successful reconnection attempt (bus.py lines 713-770): rebuild and
reconfigure every handle, re-seed outputs, reach OP, set `in_op`, reset the
communication error counter, invoke `on_reconnect` on every registered handle
in order, and only then clear the reconnecting flag. -/
def successAttempt (handles : List Nat) : List RcEvent :=
  RcEvent.attemptStart
    :: (handles.map RcEvent.configureHandle
        ++ handles.map RcEvent.seedTx
        ++ [RcEvent.setInOp, RcEvent.resetErrorCount]
        ++ handles.map RcEvent.onReconnect
        ++ [RcEvent.clearReconnecting])

/-- The retry loop of `_attempt_reconnect` with the current backoff: `nFails`
failed attempts, each followed by a wait of the current backoff which is then
doubled and capped at 10 s (`backoff = min(backoff * 2, 10.0)`), then the
successful attempt. -/
def reconnectLoop (handles : List Nat) (backoff : Nat) : Nat → List RcEvent
  | 0 => successAttempt handles
  | n + 1 => failedAttempt backoff ++ reconnectLoop handles (min (backoff * 2) 10) n

/-- `_attempt_reconnect` (bus.py lines 699-780): set the reconnecting flag,
clear `in_op`, close the old master, then run the retry loop with initial
backoff 1 s until an attempt succeeds. -/
def attempt_reconnect (handles : List Nat) (nFails : Nat) : List RcEvent :=
  [RcEvent.setReconnecting, RcEvent.clearInOp, RcEvent.closeMaster]
    ++ reconnectLoop handles 1 nFails

/-- Capping commutes with the doubling step: waiting `min (b*2) 10` and
scaling by a positive power later is the same as scaling `b*2` first. -/
theorem min_backoff_step (b m : Nat) (hm : 1 ≤ m) :
    min (min (b * 2) 10 * m) 10 = min (b * 2 * m) 10 := by
  rcases Nat.le_total (b * 2) 10 with h | h
  · rw [Nat.min_eq_left h]
  · rw [Nat.min_eq_right h]
    have h1 : 10 ≤ 10 * m := by omega
    have h2 : 10 ≤ b * 2 * m := by
      calc 10 ≤ b * 2 := h
        _ = b * 2 * 1 := (Nat.mul_one _).symm
        _ ≤ b * 2 * m := Nat.mul_le_mul_left (b * 2) hm
    rw [Nat.min_eq_right h1, Nat.min_eq_right h2]

/-- A list mapped through a wait-free event constructor contributes no
waits. -/
theorem filterMap_waitSecs_map {f : Nat → RcEvent}
    (hf : ∀ k, waitSecs (f k) = none) (l : List Nat) :
    (l.map f).filterMap waitSecs = [] := by
  induction l with
  | nil => rfl
  | cons a t ih => simp [List.filterMap_cons, hf, ih]

/-- The waits of the retry loop: with current backoff `b ≤ 10`, the `k`-th
remaining failed attempt waits `min (b * 2^k) 10` seconds. -/
theorem reconnectLoop_waits (handles : List Nat) :
    ∀ (n b : Nat), b ≤ 10 →
      (reconnectLoop handles b n).filterMap waitSecs
        = (List.range n).map (fun k => min (b * 2 ^ k) 10) := by
  intro n
  induction n with
  | zero =>
    intro b hb
    simp only [reconnectLoop, successAttempt, List.range_zero, List.map_nil]
    simp [List.filterMap_cons, List.filterMap_append,
      filterMap_waitSecs_map (f := RcEvent.configureHandle) (fun k => rfl),
      filterMap_waitSecs_map (f := RcEvent.seedTx) (fun k => rfl),
      filterMap_waitSecs_map (f := RcEvent.onReconnect) (fun k => rfl),
      waitSecs]
  | succ m ih =>
    intro b hb
    have hb2 : min (b * 2) 10 ≤ 10 := Nat.min_le_right _ _
    simp only [reconnectLoop, List.filterMap_append, ih (min (b * 2) 10) hb2]
    have hhead : (failedAttempt b).filterMap waitSecs = [b] := by
      simp [failedAttempt, List.filterMap_cons, waitSecs]
    rw [hhead, List.range_succ_eq_map, List.map_cons, List.map_map]
    have hfun : (fun k => min (min (b * 2) 10 * 2 ^ k) 10)
        = (fun k => min (b * 2 ^ k) 10) ∘ Nat.succ := by
      funext k
      have h1 : 1 ≤ 2 ^ k := Nat.one_le_two_pow
      have h2 : b * 2 ^ Nat.succ k = b * 2 * 2 ^ k := by
        rw [pow_succ]; ring
      simp only [Function.comp, min_backoff_step b (2 ^ k) h1, h2]
    rw [hfun]
    have hb0 : min (b * 2 ^ 0) 10 = b := by
      simp [Nat.min_eq_left hb]
    rw [hb0]
    rfl

/-- The retry loop always ends in the success tail: reset the error counter,
`on_reconnect` every handle in order, then — as the single final event —
clear the reconnecting flag; nothing before that tail is an `on_reconnect` or
a flag clear. -/
theorem reconnectLoop_shape (handles : List Nat) :
    ∀ (n b : Nat), ∃ mid, reconnectLoop handles b n
        = mid ++ RcEvent.resetErrorCount
            :: (handles.map RcEvent.onReconnect ++ [RcEvent.clearReconnecting])
      ∧ ∀ e ∈ mid, e.isSuccessTail = false := by
  intro n
  induction n with
  | zero =>
    intro b
    refine ⟨RcEvent.attemptStart
      :: (handles.map RcEvent.configureHandle
          ++ handles.map RcEvent.seedTx ++ [RcEvent.setInOp]), ?_, ?_⟩
    · simp [reconnectLoop, successAttempt]
    · intro e he
      simp at he
      rcases he with rfl | ⟨k, _, rfl⟩ | ⟨k, _, rfl⟩ | rfl <;> rfl
  | succ m ih =>
    intro b
    obtain ⟨mid, hmid, hok⟩ := ih (min (b * 2) 10)
    refine ⟨failedAttempt b ++ mid, ?_, ?_⟩
    · simp only [reconnectLoop, hmid, List.append_assoc]
    · intro e he
      rcases List.mem_append.mp he with he | he
      · simp [failedAttempt] at he
        rcases he with rfl | rfl | rfl <;> rfl
      · exact hok e he

/-- C3: the wait after the `k`-th failed reconnection attempt (1-indexed) is
`min(2^(k-1), 10)` seconds — 1 s initially, doubling, capped at 10 s; and the
whole procedure runs as: set the reconnecting flag first, then a middle
section containing no `on_reconnect` and no flag clear, then — on the
successful attempt — reset the communication error counter, invoke
`on_reconnect` on every registered handle in order, and clear the reconnecting
flag as the single final event, so the flag stays set from the start of the
procedure until every handle's `on_reconnect` has run. -/
theorem claim_C3_reconnect (handles : List Nat) (nFails : Nat) :
    (attempt_reconnect handles nFails).filterMap waitSecs
      = (List.range nFails).map (fun k => min (2 ^ k) 10)
    ∧ ∃ mid, attempt_reconnect handles nFails
        = RcEvent.setReconnecting
            :: (mid ++ RcEvent.resetErrorCount
                :: (handles.map RcEvent.onReconnect ++ [RcEvent.clearReconnecting]))
      ∧ ∀ e ∈ mid, e.isSuccessTail = false := by
  constructor
  · have h := reconnectLoop_waits handles nFails 1 (by omega)
    simp only [attempt_reconnect, List.filterMap_append]
    rw [h]
    simp [waitSecs, List.filterMap_cons]
  · obtain ⟨mid, hmid, hok⟩ := reconnectLoop_shape handles nFails 1
    refine ⟨RcEvent.clearInOp :: RcEvent.closeMaster :: mid, ?_, ?_⟩
    · simp [attempt_reconnect, hmid]
    · intro e he
      simp only [List.mem_cons] at he
      rcases he with rfl | rfl | he
      · rfl
      · rfl
      · exact hok e he

/-- C3 witness: the procedure with two registered handles and two failed
attempts, instantiating the claim. -/
theorem claim_C3_witness :
    (attempt_reconnect [3, 4] 2).filterMap waitSecs
      = (List.range 2).map (fun k => min (2 ^ k) 10)
    ∧ ∃ mid, attempt_reconnect [3, 4] 2
        = RcEvent.setReconnecting
            :: (mid ++ RcEvent.resetErrorCount
                :: (([3, 4] : List Nat).map RcEvent.onReconnect
                    ++ [RcEvent.clearReconnecting]))
      ∧ ∀ e ∈ mid, e.isSuccessTail = false :=
  claim_C3_reconnect [3, 4] 2

end EtherCATMaster
